import Mathlib

/-!
Shallow embedding of the `service` library (Windows service-manager backend
and Darwin launchd backend) for checking its specification.

Modelling conventions:
* OS / environment operations that can fail (connecting to the service
  manager, creating a temp file, renaming, chown, launchctl invocations,
  registry queries, ...) are driven by explicit boolean oracles collected
  in an environment record (`WinEnv`, `DEnv`, `DCtl`).  A `true` oracle
  means the operation succeeds.
* Go errors are modelled as `Option String` holding the message built at
  the corresponding `fmt.Errorf` site (`none` = nil error).
* The installed state is the content of the canonical descriptor
  (`Option String` for the launchd plist path, `Option (String × MgrConfig)`
  for the Windows registration: binary path and manager config).
* Sleeps and log statements in the source have no observable effect on the
  values modelled here and are elided.
-/

namespace Service

/-- Config mirrors `Config` in service.go lines 14-20. -/
structure Config where
  name : String
  privileged : Bool
  program : String
  arguments : List String
  workingDirectory : String
deriving DecidableEq

/-! ## Escaping helpers -/

/-- Char-by-char form of `strings.Replace(arg, quote, backslash-quote, -1)`
used at part_000 line 158: every double quote is replaced by backslash
followed by the quote. -/
def winEscape : List Char → List Char
  | [] => []
  | c :: cs => if c = '"' then '\\' :: '"' :: winEscape cs else c :: winEscape cs

def winEscapeStr (s : String) : String := ⟨winEscape s.data⟩

/-- The binary path built at part_000 lines 147-160: the quoted executable
path followed by each argument enclosed in quotes with inner quotes
backslash-escaped. -/
def winBinPath (exe : String) (args : List String) : String :=
  "\"" ++ exe ++ "\"" ++ String.join (args.map (fun a => " \"" ++ winEscapeStr a ++ "\""))

/-- Escape of a single character as performed by the Go `html` template
function (`template.HTMLEscape`): the five HTML-special characters are
replaced by entities, everything else is kept. -/
def htmlEscapeChar (c : Char) : List Char :=
  if c = '"' then ['&', '#', '3', '4', ';']
  else if c = '\x27' then ['&', '#', '3', '9', ';']
  else if c = '&' then ['&', 'a', 'm', 'p', ';']
  else if c = '<' then ['&', 'l', 't', ';']
  else if c = '>' then ['&', 'g', 't', ';']
  else [c]

def htmlEscapeList : List Char → List Char
  | [] => []
  | c :: cs => htmlEscapeChar c ++ htmlEscapeList cs

/-- String form of `{{html .}}` applied to a template value. -/
def htmlEscape (s : String) : String := ⟨htmlEscapeList s.data⟩

/-- The entity the `html` template function substitutes for a double quote. -/
def escQuote : List Char := ['&', '#', '3', '4', ';']

/-- begMatch p l: the list l begins with the pattern p. -/
def begMatch : List Char → List Char → Bool
  | [], _ => true
  | _ :: _, [] => false
  | a :: as, b :: bs => a == b && begMatch as bs

/-- hasSub p l: the pattern p occurs contiguously somewhere in l. -/
def hasSub (p : List Char) : List Char → Bool
  | [] => begMatch p []
  | c :: rest => begMatch p (c :: rest) || hasSub p rest

def noBareQuoteAux (prev : Char) : List Char → Bool
  | [] => true
  | c :: rest => (!(c == '"') || (prev == '\\')) && noBareQuoteAux c rest

/-- noBareQuote l: every double quote occurring in l is immediately
preceded by a backslash (the first character is not a quote). -/
def noBareQuote (l : List Char) : Bool := noBareQuoteAux 'x' l

/-! ## Darwin launchd backend (service.go) -/

/-- Render of the `launchdConfig` template (service.go lines 301-328)
against a darwinLaunchdService value: every interpolation goes through the
`html` escape function, and the WorkingDirectory key is emitted only when
the field is non-empty. -/
def renderPlist (c : Config) : String :=
  "<?xml version=\x271.0\x27 encoding=\x27UTF-8\x27?>\n" ++
  "<!DOCTYPE plist PUBLIC \"-//Apple Computer//DTD PLIST 1.0//EN\"\n" ++
  "\"http://www.apple.com/DTDs/PropertyList-1.0.dtd\" >\n" ++
  "<plist version=\x271.0\x27>\n" ++
  "<dict>\n" ++
  "<key>Label</key><string>" ++ htmlEscape c.name ++ "</string>\n" ++
  "<key>Program</key><string>" ++ htmlEscape c.program ++ "</string>\n" ++
  "<key>ProgramArguments</key>\n" ++
  "<array>" ++
    String.join (c.arguments.map
      (fun a => "\n        <string>" ++ htmlEscape a ++ "</string>\n")) ++
  "</array>\n" ++
  (if c.workingDirectory = "" then ""
   else "<key>WorkingDirectory</key><string>" ++ htmlEscape c.workingDirectory ++ "</string>") ++
  "\n" ++
  "<key>KeepAlive</key>\n<dict>\n\t<key>SuccessfulExit</key>\n\t<false/>\n</dict>\n" ++
  "<key>RunAtLoad</key><true/>\n<key>Disabled</key><false/>\n" ++
  "<key>UserName</key>\n<string>root</string>\n" ++
  "<key>GroupName</key>\n<string>wheel</string>\n" ++
  "<key>InitGroups</key>\n<true/>\n</dict>\n</plist>\n"

/-- Environment oracles for the darwin backend's OS interactions.  Each
field tells whether the corresponding operation succeeds. -/
structure DEnv where
  createTmpOk : Bool
  templateOk : Bool
  chmodOk : Bool
  closeOk : Bool
  statWeird : Bool
  readOldOk : Bool
  readNewOk : Bool
  renameOk : Bool
  chownOk : Bool
  loadOk : Bool
  unloadOk : Bool
deriving DecidableEq

/-- Fixed non-empty name stands for the path `ioutil.TempFile` returns. -/
def tmpName : String := "/tmp/service.plist000"

/-- Outcome of `prepareTmpFile` (service.go lines 182-212): the returned
name ("" on every error path), the returned error, and whether the
temporary file exists on disk when the function returns.  On a template,
chmod or close failure the file was already created yet the returned name
is "", so the caller's conditional `defer os.Remove(tmpFile)` never sees
it. -/
structure PrepResult where
  fname : String
  err : Option String
  created : Bool
deriving DecidableEq

/-- Mirrors `darwinLaunchdService.prepareTmpFile` (service.go 182-212). -/
def prepareTmpFile (env : DEnv) : PrepResult :=
  if !env.createTmpOk then
    ⟨"", some "Unable to create temporary service configuration", false⟩
  else if !env.templateOk then
    ⟨"", some "Unable to process service configuration template", true⟩
  else if !env.chmodOk then
    ⟨"", some "Unable to chmod temp file", true⟩
  else if !env.closeOk then
    ⟨"", some "Unable to close temp file", true⟩
  else
    ⟨tmpName, none, true⟩

/-- Mirrors `darwinLaunchdService.differsFromInstalled` (service.go
214-241).  `inst` is the content installed at serviceFilePath (`none` when
the file does not exist), `tmpContent` the freshly rendered plist.  The
log line and the `time.Sleep(5 * time.Hour)` on the differ branch have no
modelled effect. -/
def differsFromInstalled (inst : Option String) (tmpContent : String) (env : DEnv) :
    Bool × Option String :=
  match inst with
  | some old =>
    if !env.readOldOk then
      (false, some "Unable to read existing launchd configuration for comparing")
    else if !env.readNewOk then
      (false, some "Unable to read updated launchd configuration for comparing")
    else if old = tmpContent then (false, none)
    else (true, none)
  | none =>
    if env.statWeird then (false, some "Unable to stat existing launchd configuration")
    else (true, none)

/-- Result of the darwin `InstallOrUpdateRequired`: the returned pair plus
whether the temporary file is left behind on disk after the call. -/
structure DReqResult where
  required : Bool
  err : Option String
  leaked : Bool
deriving DecidableEq

/-- Mirrors `darwinLaunchdService.InstallOrUpdateRequired` (service.go
136-146).  The deferred `os.Remove(tmpFile)` runs only when the returned
name is non-empty, so `leaked` is: the file was created and the returned
name was empty. -/
def dRequired (c : Config) (env : DEnv) (inst : Option String) : DReqResult :=
  let p := prepareTmpFile env
  let leaked := p.created && (p.fname == "")
  if p.err = none then
    let d := differsFromInstalled inst (renderPlist c) env
    ⟨d.1, d.2, leaked⟩
  else
    ⟨false, p.err, leaked⟩

/-- Result of the darwin `InstallOrUpdate`: returned pair, content
installed at the canonical path afterwards, whether launchctl load was
invoked, and whether the temporary file is left behind. -/
structure DInstResult where
  changed : Bool
  err : Option String
  newInstalled : Option String
  loadAttempted : Bool
  leaked : Bool
deriving DecidableEq

/-- Mirrors `darwinLaunchdService.InstallOrUpdate` (service.go 148-180).
Note the boolean from `differsFromInstalled` is never consulted: on any
non-error comparison the code renames the temp file over the installed
path, chowns it and loads it.  After a successful rename the temporary
file no longer exists (the deferred remove is a no-op). -/
def dInstallOrUpdate (c : Config) (env : DEnv) (inst : Option String) : DInstResult :=
  let p := prepareTmpFile env
  let leaked := p.created && (p.fname == "")
  if p.err = none then
    let d := differsFromInstalled inst (renderPlist c) env
    if d.2 = none then
      if !env.renameOk then
        ⟨false, some "Unable to move service configuration to destination", inst, false, leaked⟩
      else if !env.chownOk then
        ⟨false, some "Unable to change owner to root", some (renderPlist c), false, false⟩
      else if !env.loadOk then
        ⟨false, some "Unable to load service", some (renderPlist c), true, false⟩
      else
        ⟨true, none, some (renderPlist c), true, false⟩
    else
      ⟨d.1, d.2.map (fun e => "Unable to determine if new configuration differs from old: " ++ e),
        inst, false, leaked⟩
  else
    ⟨false, p.err, inst, false, leaked⟩

/-- Mirrors `darwinLaunchdService.Uninstall` (service.go 243-250): first
`launchctl unload`, whose failure is wrapped; then `os.Remove`, which on a
never-installed path fails with a file-not-found error.  Returns the error
and the installed content afterwards. -/
def dUninstall (env : DEnv) (inst : Option String) : Option String × Option String :=
  if !env.unloadOk then
    (some "Unable to unload service prior to uninstalling", inst)
  else
    match inst with
    | none => (some "remove: no such file or directory", none)
    | some _ => (none, none)

/-- Oracles for the darwin launchctl start/stop invocations. -/
structure DCtl where
  startOk : Bool
  stopOk : Bool
deriving DecidableEq

/-- Commands the darwin control path issues to launchctl. -/
inductive DAct where
  | launchctlStart (name : String)
  | launchctlStop (name : String)
deriving DecidableEq

/-- Mirrors `darwinLaunchdService.Start` (service.go 252-254). -/
def dStart (c : Config) (e : DCtl) : List DAct × Option String :=
  ([DAct.launchctlStart c.name], if e.startOk then none else some "launchctl start failed")

/-- Mirrors `darwinLaunchdService.Stop` (service.go 256-258). -/
def dStop (c : Config) (e : DCtl) : List DAct × Option String :=
  ([DAct.launchctlStop c.name], if e.stopOk then none else some "launchctl stop failed")

/-- Mirrors `darwinLaunchdService.Restart` (service.go 260-267): Stop,
then (after a 50ms sleep with no modelled effect) Start; a Stop error is
returned immediately without attempting Start. -/
def dRestart (c : Config) (e : DCtl) : List DAct × Option String :=
  let s := dStop c e
  match s.2 with
  | some err => (s.1, some err)
  | none => (s.1 ++ (dStart c e).1, (dStart c e).2)

/-! ## Windows backend (part_000) -/

/-- mgr.Config fields set by `buildConfig` (part_000 lines 177-186). -/
structure MgrConfig where
  displayName : String
  description : String
  startType : Nat
  serviceStartName : String
deriving DecidableEq

/-- Zero value `mgr.Config\x7b\x7d`. -/
def zeroMgr : MgrConfig := ⟨"", "", 0, ""⟩

/-- `mgr.StartAutomatic` (SERVICE_AUTO_START). -/
def startAutomatic : Nat := 2

/-- Mirrors `windowsService.buildConfig` (part_000 177-186); it cannot
fail. -/
def buildConfig (c : Config) : MgrConfig :=
  ⟨c.name, c.name, startAutomatic, ".\\LocalSystem"⟩

/-- Calls the Windows backend makes against the service manager.  Open
and close bookkeeping on service handles is elided; `connect` and
`disconnect` are kept so that a trace of a routine that touches nothing
else is visible as such. -/
inductive WinAction where
  | connect
  | disconnect
  | createSvc (binPath : String) (cfg : MgrConfig)
  | updateCfg (cfg : MgrConfig)
  | startSvc
  | controlStop
deriving DecidableEq

/-- Environment oracles for the Windows service manager interactions,
together with the pre-existing registration (when `svcExists`). -/
structure WinEnv where
  connectOk : Bool
  svcExists : Bool
  queryCfgOk : Bool
  oldCfg : MgrConfig
  oldBinPath : String
  exeOk : Bool
  exePath : String
  createOk : Bool
  updateOk : Bool
  openForStartOk : Bool
  startOk : Bool
  stopCtlOk : Bool
  deleteOk : Bool
  eventlogOk : Bool
deriving DecidableEq

/-- The registration installed before the call: binary path and config
when the service exists. -/
def winReg (env : WinEnv) : Option (String × MgrConfig) :=
  if env.svcExists then some (env.oldBinPath, env.oldCfg) else none

/-- Mirrors `windowsService.InstallOrUpdateRequired` (part_000 94-118).
The body begins with `if true` returning `(true, nil)` at lines 95-97;
everything after that is dead code, so the function is constant. -/
def winInstallOrUpdateRequired (_env : WinEnv) : Bool × Option String :=
  (true, none)

/-- Result of the Windows `InstallOrUpdate`: trace of manager calls,
returned boolean, returned error, registration afterwards. -/
structure WinInstResult where
  acts : List WinAction
  changed : Bool
  err : Option String
  reg : Option (String × MgrConfig)
deriving DecidableEq

/-- Mirrors `windowsService.InstallOrUpdate` (part_000 120-175).
`existingSvcAndConfig` (188-200) treats an OpenService failure as "not
installed" with a nil error; a config-query failure on an existing service
is an error.  When the service exists and the configs are DeepEqual the
call is a no-op returning `(false, nil)`.  On the create path the code
builds the quoted binary path, creates the service, and returns
`(false, doStart(m))` - note the returned boolean is false and the
service is started.  On the update path it updates the config and returns
`(true, nil)` without starting anything.  A failed CreateService or
UpdateConfig is modelled as leaving the registration unchanged. -/
def winInstallOrUpdate (c : Config) (env : WinEnv) : WinInstResult :=
  if !env.connectOk then
    ⟨[], false, some "Unable to connect to service manager", winReg env⟩
  else if env.svcExists && !env.queryCfgOk then
    ⟨[WinAction.connect, WinAction.disconnect], false,
      some "Unable to get existing service and config", winReg env⟩
  else if env.svcExists && (env.oldCfg == buildConfig c) then
    ⟨[WinAction.connect, WinAction.disconnect], false, none, winReg env⟩
  else if !env.svcExists then
    if !env.exeOk then
      ⟨[WinAction.connect, WinAction.disconnect], false,
        some "Unable to determine executable", winReg env⟩
    else if !env.createOk then
      ⟨[WinAction.connect, WinAction.disconnect], false,
        some "Unable to create service", winReg env⟩
    else if !env.openForStartOk then
      ⟨[WinAction.connect,
          WinAction.createSvc (winBinPath env.exePath c.arguments) (buildConfig c),
          WinAction.disconnect], false,
        some "doStart: unable to open service",
        some (winBinPath env.exePath c.arguments, buildConfig c)⟩
    else if !env.startOk then
      ⟨[WinAction.connect,
          WinAction.createSvc (winBinPath env.exePath c.arguments) (buildConfig c),
          WinAction.disconnect], false,
        some "doStart: unable to start service",
        some (winBinPath env.exePath c.arguments, buildConfig c)⟩
    else
      ⟨[WinAction.connect,
          WinAction.createSvc (winBinPath env.exePath c.arguments) (buildConfig c),
          WinAction.startSvc, WinAction.disconnect], false, none,
        some (winBinPath env.exePath c.arguments, buildConfig c)⟩
  else
    if !env.updateOk then
      ⟨[WinAction.connect, WinAction.disconnect], false,
        some "Unable to update config", winReg env⟩
    else
      ⟨[WinAction.connect, WinAction.updateCfg (buildConfig c), WinAction.disconnect],
        true, none, some (env.oldBinPath, buildConfig c)⟩

/-- Mirrors `windowsService.Start` (part_000 242-249): it connects to the
service manager, defers a disconnect, and returns nil - no service is
opened and no start control is issued. -/
def winStart (env : WinEnv) : List WinAction × Option String :=
  if !env.connectOk then ([], some "Unable to connect to service manager")
  else ([WinAction.connect, WinAction.disconnect], none)

/-- Mirrors `windowsService.Stop` (part_000 260-274). -/
def winStop (env : WinEnv) : List WinAction × Option String :=
  if !env.connectOk then ([], some "Unable to connect to service manager")
  else if !env.svcExists then
    ([WinAction.connect, WinAction.disconnect], some "service does not exist")
  else if !env.stopCtlOk then
    ([WinAction.connect, WinAction.controlStop, WinAction.disconnect],
      some "stop control failed")
  else
    ([WinAction.connect, WinAction.controlStop, WinAction.disconnect], none)

/-- Mirrors `windowsService.Restart` (part_000 276-283): Stop, then
(after a 50ms sleep with no modelled effect) Start; a Stop error is
returned immediately without attempting Start. -/
def winRestart (env : WinEnv) : List WinAction × Option String :=
  let s := winStop env
  match s.2 with
  | some e => (s.1, some e)
  | none => (s.1 ++ (winStart env).1, (winStart env).2)

/-- Mirrors `windowsService.Uninstall` (part_000 202-222): an OpenService
failure yields the formatted "service NAME is not installed" error. -/
def winUninstall (c : Config) (env : WinEnv) : Option String :=
  if !env.connectOk then some "Unable to connect to service manager"
  else if !env.svcExists then some ("service " ++ c.name ++ " is not installed")
  else if !env.deleteOk then some "delete failed"
  else if !env.eventlogOk then some "RemoveEventLogSource() failed"
  else none

/-! ## Windows control bridge (Execute / Run) -/

/-- Service states reported to the OS via the status channel. -/
inductive SvcState where
  | startPending
  | running
  | stopPending
deriving DecidableEq

/-- Change requests arriving on the control channel. -/
inductive Cmd where
  | interrogate
  | stop
  | shutdown
  | unknown
deriving DecidableEq

/-- Outcome of `windowsService.Execute`: statuses pushed to the OS in
order, the error recorded through `setError`, and the returned pair
(svcSpecificEC, exit code) - `none` when the control loop never receives
a stop/shutdown within the given requests and hence never returns. -/
structure ExecResult where
  statuses : List SvcState
  recorded : Option String
  exit : Option (Bool × Nat)
deriving DecidableEq

/-- Outcome of receiving a stop or shutdown request (part_000 77-85):
StopPending is reported; a non-nil failing `Config.Stop` records its error
and returns `(true, 2)`; otherwise the loop breaks and Execute returns
`(false, 0)`.  `stopCb` is `none` when `Config.Stop` is nil, `some r` when
it is set and returns `r`. -/
def stopOutcome : Option (Option String) → ExecResult
  | none => ⟨[SvcState.stopPending], none, some (false, 0)⟩
  | some none => ⟨[SvcState.stopPending], none, some (false, 0)⟩
  | some (some e) => ⟨[SvcState.stopPending], some e, some (true, 2)⟩

/-- The control loop of `Execute` (part_000 71-89) over the incoming
requests: Interrogate echoes the current (running) status, unknown
commands are skipped, stop/shutdown ends the loop via `stopOutcome`. -/
def execLoop (stopCb : Option (Option String)) : List Cmd → ExecResult
  | [] => ⟨[], none, none⟩
  | Cmd.interrogate :: rest =>
    let r := execLoop stopCb rest
    ⟨SvcState.running :: r.statuses, r.recorded, r.exit⟩
  | Cmd.unknown :: rest => execLoop stopCb rest
  | Cmd.stop :: _ => stopOutcome stopCb
  | Cmd.shutdown :: _ => stopOutcome stopCb

/-- Mirrors `windowsService.Execute` (part_000 61-92): StartPending is
reported first; a failing `Config.Start` records its error and returns
`(true, 1)` without ever reporting Running; otherwise Running is reported
and the control loop runs.  `startRes` is the value `Config.Start()`
returns. -/
def winExecute (startRes : Option String) (stopCb : Option (Option String))
    (cmds : List Cmd) : ExecResult :=
  match startRes with
  | some e => ⟨[SvcState.startPending], some e, some (true, 1)⟩
  | none =>
    let r := execLoop stopCb cmds
    ⟨SvcState.startPending :: SvcState.running :: r.statuses, r.recorded, r.exit⟩

/-- Mirrors `windowsService.Run` (part_000 224-240): the error recorded by
Execute through `setError` takes precedence; otherwise the error from
`svc.Run` itself (`infra`) is returned; otherwise nil. -/
def winRun (startRes : Option String) (stopCb : Option (Option String))
    (cmds : List Cmd) (infra : Option String) : Option String :=
  let r := winExecute startRes stopCb cmds
  match r.recorded with
  | some e => some e
  | none => infra

/-! ## Concrete configurations and environments used as test inputs -/

def c0 : Config := ⟨"svc", false, "/bin/svc", [], ""⟩

def allOkD : DEnv := ⟨true, true, true, true, false, true, true, true, true, true, true⟩

def envChownFail : DEnv := ⟨true, true, true, true, false, true, true, true, false, true, true⟩

def envTemplateFail : DEnv := ⟨true, false, true, true, false, true, true, true, true, true, true⟩

def envNoUnload : DEnv := ⟨true, true, true, true, false, true, true, true, true, true, false⟩

def dctlStopFail : DCtl := ⟨true, false⟩

def wFreshE (exe : String) : WinEnv :=
  ⟨true, false, true, zeroMgr, "", true, exe, true, true, true, true, true, true, true⟩

def wFresh : WinEnv := wFreshE "exe"

def wStartFail : WinEnv :=
  ⟨true, false, true, zeroMgr, "", true, "exe", true, true, true, false, true, true, true⟩

def wExist : WinEnv :=
  ⟨true, true, true, zeroMgr, "oldbin", true, "exe", true, true, true, true, true, true, true⟩

def wNoSvc : WinEnv :=
  ⟨true, false, true, zeroMgr, "", true, "exe", true, true, true, true, true, true, true⟩

/-! ## Lemmas about the escaping helpers -/

lemma begMatch_append (p r : List Char) : begMatch p (p ++ r) = true := by
  induction p with
  | nil => rfl
  | cons a as ih => simp [begMatch, ih]

lemma hasSub_append_left (p l r : List Char) (h : hasSub p r = true) :
    hasSub p (l ++ r) = true := by
  induction l with
  | nil => simpa using h
  | cons c l ih => simp [hasSub, ih]

lemma hasSub_self_append (p r : List Char) : hasSub p (p ++ r) = true := by
  cases p with
  | nil =>
    cases r with
    | nil => rfl
    | cons c rest => simp [hasSub, begMatch]
  | cons a as =>
    simp only [hasSub, Bool.or_eq_true]
    exact Or.inl (begMatch_append (a :: as) r)

lemma quote_not_mem_htmlEscapeChar (c : Char) : '"' ∉ htmlEscapeChar c := by
  unfold htmlEscapeChar
  split_ifs with h1 h2 h3 h4 h5
  · decide
  · decide
  · decide
  · decide
  · decide
  · simp only [List.mem_singleton]
    intro hc
    exact h1 hc.symm

lemma quote_not_mem_htmlEscapeList (l : List Char) : '"' ∉ htmlEscapeList l := by
  induction l with
  | nil => simp [htmlEscapeList]
  | cons c cs ih =>
    simp only [htmlEscapeList, List.mem_append]
    rintro (h | h)
    · exact quote_not_mem_htmlEscapeChar c h
    · exact ih h

lemma hasSub_escQuote_htmlEscapeList (l : List Char) (h : '"' ∈ l) :
    hasSub escQuote (htmlEscapeList l) = true := by
  induction l with
  | nil => cases h
  | cons c cs ih =>
    by_cases hc : c = '"'
    · subst hc
      have he : htmlEscapeList ('"' :: cs) = escQuote ++ htmlEscapeList cs := rfl
      rw [he]
      exact hasSub_self_append _ _
    · have hm : '"' ∈ cs := by
        rcases List.mem_cons.mp h with h0 | h0
        · exact absurd h0.symm hc
        · exact h0
      have he : htmlEscapeList (c :: cs) = htmlEscapeChar c ++ htmlEscapeList cs := rfl
      rw [he]
      exact hasSub_append_left _ _ _ (ih hm)

lemma noBareQuoteAux_winEscape (l : List Char) :
    ∀ prev, noBareQuoteAux prev (winEscape l) = true := by
  induction l with
  | nil => intro prev; rfl
  | cons c cs ih =>
    intro prev
    by_cases hc : c = '"'
    · subst hc
      have he : winEscape ('"' :: cs) = '\\' :: '"' :: winEscape cs := by
        simp [winEscape]
      rw [he]
      have h1 : ('\\' == '"') = false := by decide
      have h2 : ('"' == '"') = true := by decide
      have h3 : ('\\' == '\\') = true := by decide
      simp [noBareQuoteAux, h1, h2, h3, ih]
    · have he : winEscape (c :: cs) = c :: winEscape cs := by
        simp only [winEscape]
        rw [if_neg hc]
      rw [he]
      have h1 : (c == '"') = false := by simp [hc]
      simp [noBareQuoteAux, h1, ih]

lemma noBareQuote_winEscape (l : List Char) : noBareQuote (winEscape l) = true :=
  noBareQuoteAux_winEscape l 'x'

lemma hasSub_slashQuote_winEscape (l : List Char) (h : '"' ∈ l) :
    hasSub ['\\', '"'] (winEscape l) = true := by
  induction l with
  | nil => cases h
  | cons c cs ih =>
    by_cases hc : c = '"'
    · subst hc
      have he : winEscape ('"' :: cs) = ['\\', '"'] ++ winEscape cs := by
        simp [winEscape]
      rw [he]
      exact hasSub_self_append _ _
    · have hm : '"' ∈ cs := by
        rcases List.mem_cons.mp h with h0 | h0
        · exact absurd h0.symm hc
        · exact h0
      have he : winEscape (c :: cs) = [c] ++ winEscape cs := by
        simp only [winEscape]
        rw [if_neg hc]
        rfl
      rw [he]
      exact hasSub_append_left _ _ _ (ih hm)

/-! ## Claim C7 -/

/-- C7: a Config argument containing a double-quote character renders to
an escaped form in both descriptors: its launchd plist value contains no
raw quote and contains the `&#34;` entity, and its Windows binary-path
fragment has every quote immediately preceded by a backslash and contains
the backslash-quote pair. -/
theorem c7_argument_quotes_escaped (arg : String) (h : '"' ∈ arg.data) :
    ('"' ∉ (htmlEscape arg).data ∧ hasSub escQuote (htmlEscape arg).data = true) ∧
    (noBareQuote (winEscape arg.data) = true ∧
      hasSub ['\\', '"'] (winEscape arg.data) = true) := by
  refine ⟨⟨?_, ?_⟩, ?_, ?_⟩
  · exact quote_not_mem_htmlEscapeList arg.data
  · exact hasSub_escQuote_htmlEscapeList arg.data h
  · exact noBareQuote_winEscape arg.data
  · exact hasSub_slashQuote_winEscape arg.data h

theorem c7_witness :
    '"' ∈ ("a\"b").data ∧
    (('"' ∉ (htmlEscape "a\"b").data ∧ hasSub escQuote (htmlEscape "a\"b").data = true) ∧
      (noBareQuote (winEscape ("a\"b").data) = true ∧
        hasSub ['\\', '"'] (winEscape ("a\"b").data) = true)) :=
  ⟨by decide, c7_argument_quotes_escaped "a\"b" (by decide)⟩

/-! ## Claims C5 and C6 -/

/-- C5: when onStart fails, Execute reports only StartPending (Running is
never reported), records the error, exits with service-specific status 1
- nonzero and distinct from the onStop-failure status 2 - and Run
returns the onStart error. -/
theorem c5_onStart_failure (e : String) (stopCb : Option (Option String))
    (cmds : List Cmd) (infra : Option String) :
    SvcState.running ∉ (winExecute (some e) stopCb cmds).statuses ∧
    (winExecute (some e) stopCb cmds).recorded = some e ∧
    (winExecute (some e) stopCb cmds).exit = some (true, 1) ∧
    (1 : Nat) ≠ 0 ∧ (1 : Nat) ≠ 2 ∧
    winRun (some e) stopCb cmds infra = some e := by
  refine ⟨?_, rfl, rfl, by decide, by decide, rfl⟩
  simp [winExecute]

lemma execLoop_stop_failure (e : String) :
    ∀ cmds : List Cmd, Cmd.stop ∈ cmds ∨ Cmd.shutdown ∈ cmds →
      (execLoop (some (some e)) cmds).recorded = some e ∧
      (execLoop (some (some e)) cmds).exit = some (true, 2) := by
  intro cmds
  induction cmds with
  | nil =>
    intro h
    rcases h with h | h <;> cases h
  | cons c rest ih =>
    intro h
    cases c with
    | interrogate =>
      have h' : Cmd.stop ∈ rest ∨ Cmd.shutdown ∈ rest := by
        rcases h with h | h
        · rcases List.mem_cons.mp h with h0 | h0
          · exact absurd h0 (by decide)
          · exact Or.inl h0
        · rcases List.mem_cons.mp h with h0 | h0
          · exact absurd h0 (by decide)
          · exact Or.inr h0
      exact ih h'
    | unknown =>
      have h' : Cmd.stop ∈ rest ∨ Cmd.shutdown ∈ rest := by
        rcases h with h | h
        · rcases List.mem_cons.mp h with h0 | h0
          · exact absurd h0 (by decide)
          · exact Or.inl h0
        · rcases List.mem_cons.mp h with h0 | h0
          · exact absurd h0 (by decide)
          · exact Or.inr h0
      exact ih h'
    | stop => exact ⟨rfl, rfl⟩
    | shutdown => exact ⟨rfl, rfl⟩

/-- C6: when onStart succeeds and a stop/shutdown request arrives while
onStop fails, the control loop still exits, the onStop error is recorded,
the service-specific status is 2 - nonzero and distinct from the
onStart-failure status 1 - and Run returns the onStop error regardless of
the result of the control loop infrastructure. -/
theorem c6_onStop_failure (e : String) (cmds : List Cmd) (infra : Option String)
    (h : Cmd.stop ∈ cmds ∨ Cmd.shutdown ∈ cmds) :
    (winExecute none (some (some e)) cmds).recorded = some e ∧
    (winExecute none (some (some e)) cmds).exit = some (true, 2) ∧
    (2 : Nat) ≠ 0 ∧ (2 : Nat) ≠ 1 ∧
    winRun none (some (some e)) cmds infra = some e := by
  have hl := execLoop_stop_failure e cmds h
  refine ⟨hl.1, hl.2, by decide, by decide, ?_⟩
  have hr : (winExecute none (some (some e)) cmds).recorded = some e := hl.1
  simp [winRun, hr]

theorem c6_witness :
    (Cmd.stop ∈ [Cmd.stop] ∨ Cmd.shutdown ∈ [Cmd.stop]) ∧
    ((winExecute none (some (some "boom")) [Cmd.stop]).recorded = some "boom" ∧
      (winExecute none (some (some "boom")) [Cmd.stop]).exit = some (true, 2) ∧
      (2 : Nat) ≠ 0 ∧ (2 : Nat) ≠ 1 ∧
      winRun none (some (some "boom")) [Cmd.stop] none = some "boom") :=
  ⟨by decide, c6_onStop_failure "boom" [Cmd.stop] none (by decide)⟩

/-! ## Claims about install / update / uninstall -/

lemma dInstallOrUpdate_err_none (c : Config) (env : DEnv) (inst : Option String)
    (h : (dInstallOrUpdate c env inst).err = none) :
    (dInstallOrUpdate c env inst).newInstalled = some (renderPlist c) := by
  unfold dInstallOrUpdate at h ⊢
  by_cases hp : (prepareTmpFile env).err = none
  · by_cases hd : (differsFromInstalled inst (renderPlist c) env).2 = none
    · simp only [hp, hd, if_true, eq_self_iff_true] at h ⊢
      split_ifs at h ⊢ <;> simp_all
    · simp [hp, hd, Option.map_eq_none'] at h
  · simp [hp] at h

/-- C1: on the darwin backend the claim holds: after a successful
InstallOrUpdate the installed plist equals the rendered one, so a
subsequent InstallOrUpdateRequired (whose own environment operations
succeed) returns (false, nil).  On the Windows backend the code
contradicts the claim: InstallOrUpdateRequired short-circuits through a
dead `if true` guard and returns (true, nil) unconditionally. -/
theorem c1_required_after_install (c : Config) (env1 env2 : DEnv) (inst : Option String)
    (wenv : WinEnv)
    (h : (dInstallOrUpdate c env1 inst).err = none)
    (h2 : env2.createTmpOk = true) (h3 : env2.templateOk = true)
    (h4 : env2.chmodOk = true) (h5 : env2.closeOk = true)
    (h6 : env2.readOldOk = true) (h7 : env2.readNewOk = true) :
    (dRequired c env2 (dInstallOrUpdate c env1 inst).newInstalled).required = false ∧
    (dRequired c env2 (dInstallOrUpdate c env1 inst).newInstalled).err = none ∧
    winInstallOrUpdateRequired wenv = (true, none) := by
  have hi := dInstallOrUpdate_err_none c env1 inst h
  rw [hi]
  refine ⟨?_, ?_, rfl⟩ <;>
    simp [dRequired, prepareTmpFile, differsFromInstalled, h2, h3, h4, h5, h6, h7]

theorem c1_witness :
    ((dInstallOrUpdate c0 allOkD none).err = none ∧
      allOkD.createTmpOk = true ∧ allOkD.templateOk = true ∧ allOkD.chmodOk = true ∧
      allOkD.closeOk = true ∧ allOkD.readOldOk = true ∧ allOkD.readNewOk = true) ∧
    ((dRequired c0 allOkD (dInstallOrUpdate c0 allOkD none).newInstalled).required = false ∧
      (dRequired c0 allOkD (dInstallOrUpdate c0 allOkD none).newInstalled).err = none ∧
      winInstallOrUpdateRequired wFresh = (true, none)) :=
  ⟨⟨by decide, rfl, rfl, rfl, rfl, rfl, rfl⟩,
    c1_required_after_install c0 allOkD allOkD none wFresh (by decide) rfl rfl rfl rfl rfl rfl⟩

/-- C2: refuted by the code: the Windows create path creates the service,
starts it, and still returns false with a nil error; and the darwin
backend returns true with a nil error even when the installed plist
already matches the rendered descriptor (it never consults the comparison
result). -/
theorem c2_return_value (c : Config) (exe : String) :
    ((winInstallOrUpdate c (wFreshE exe)).err = none ∧
      WinAction.createSvc (winBinPath exe c.arguments) (buildConfig c) ∈
        (winInstallOrUpdate c (wFreshE exe)).acts ∧
      (winInstallOrUpdate c (wFreshE exe)).changed = false) ∧
    ((dInstallOrUpdate c allOkD (some (renderPlist c))).err = none ∧
      (dInstallOrUpdate c allOkD (some (renderPlist c))).changed = true) := by
  refine ⟨⟨?_, ?_, ?_⟩, ?_, ?_⟩ <;>
    simp [winInstallOrUpdate, wFreshE, winReg, dInstallOrUpdate, prepareTmpFile,
      differsFromInstalled, allOkD]

/-- C3 counterexample: with an existing installed descriptor, a chown
failure after the rename returns an error, yet the installed file is the
new descriptor (not the prior one) and launchctl load was never invoked,
so neither disjunct of the claim holds. -/
theorem c3_counterexample :
    (dInstallOrUpdate c0 envChownFail (some "old")).err ≠ none ∧
    (dInstallOrUpdate c0 envChownFail (some "old")).newInstalled ≠ some "old" ∧
    (dInstallOrUpdate c0 envChownFail (some "old")).loadAttempted = false := by
  decide

/-- C3 amended: on an error return the installed descriptor is either
exactly the prior one (all failures up to and including the rename; on
Windows also connect/query/create/update failures) or the newly rendered
one (darwin chown/load failures after the rename; Windows doStart
failures after a successful create). -/
theorem c3_atomicity_amended (c wc : Config) (env : DEnv) (inst : Option String)
    (wenv : WinEnv)
    (_h1 : (dInstallOrUpdate c env inst).err ≠ none)
    (h2 : (winInstallOrUpdate wc wenv).err ≠ none) :
    ((dInstallOrUpdate c env inst).newInstalled = inst ∨
      (dInstallOrUpdate c env inst).newInstalled = some (renderPlist c)) ∧
    ((winInstallOrUpdate wc wenv).reg = winReg wenv ∨
      (winInstallOrUpdate wc wenv).reg =
        some (winBinPath wenv.exePath wc.arguments, buildConfig wc)) := by
  constructor
  · unfold dInstallOrUpdate
    by_cases hp : (prepareTmpFile env).err = none
    · by_cases hd : (differsFromInstalled inst (renderPlist c) env).2 = none
      · simp only [hp, hd, if_true, eq_self_iff_true]
        split_ifs <;> simp
      · simp [hp, hd]
    · simp [hp]
  · unfold winInstallOrUpdate at h2 ⊢
    split_ifs at h2 ⊢ <;> simp_all

theorem c3_atomicity_witness :
    ((dInstallOrUpdate c0 envChownFail (some "old")).err ≠ none ∧
      (winInstallOrUpdate c0 wStartFail).err ≠ none) ∧
    (((dInstallOrUpdate c0 envChownFail (some "old")).newInstalled = some "old" ∨
        (dInstallOrUpdate c0 envChownFail (some "old")).newInstalled =
          some (renderPlist c0)) ∧
      ((winInstallOrUpdate c0 wStartFail).reg = winReg wStartFail ∨
        (winInstallOrUpdate c0 wStartFail).reg =
          some (winBinPath wStartFail.exePath c0.arguments, buildConfig c0))) :=
  ⟨⟨by decide, by decide⟩,
    c3_atomicity_amended c0 c0 envChownFail (some "old") wStartFail (by decide) (by decide)⟩

/-- C4: refuted by the code on Windows: `Start` connects to the manager
and returns nil without opening the service or issuing any start control.
The Restart halves of the claim do hold: both backends run Stop, return
immediately on a Stop error without attempting Start, and otherwise run
Start (the darwin Start does issue `launchctl start`). -/
theorem c4_start_restart (env env2 : WinEnv) (c : Config) (e e2 : DCtl)
    (h1 : env.connectOk = true)
    (h2 : (winStop env2).2 ≠ none)
    (h3 : e2.stopOk = false) :
    (winStart env).2 = none ∧
    (winStart env).1 = [WinAction.connect, WinAction.disconnect] ∧
    WinAction.startSvc ∉ (winStart env).1 ∧
    winRestart env2 = ((winStop env2).1, (winStop env2).2) ∧
    (dStart c e).1 = [DAct.launchctlStart c.name] ∧
    (dRestart c e2).1 = [DAct.launchctlStop c.name] ∧
    (dRestart c e2).2 ≠ none := by
  obtain ⟨er, her⟩ := Option.ne_none_iff_exists'.mp h2
  refine ⟨?_, ?_, ?_, ?_, rfl, ?_, ?_⟩
  · simp [winStart, h1]
  · simp [winStart, h1]
  · simp [winStart, h1]
  · simp [winRestart, her]
  · simp [dRestart, dStop, h3]
  · simp [dRestart, dStop, h3]

def dctlOk : DCtl := ⟨true, true⟩

theorem c4_witness :
    (wFresh.connectOk = true ∧ (winStop wNoSvc).2 ≠ none ∧ dctlStopFail.stopOk = false) ∧
    ((winStart wFresh).2 = none ∧
      (winStart wFresh).1 = [WinAction.connect, WinAction.disconnect] ∧
      WinAction.startSvc ∉ (winStart wFresh).1 ∧
      winRestart wNoSvc = ((winStop wNoSvc).1, (winStop wNoSvc).2) ∧
      (dStart c0 dctlOk).1 = [DAct.launchctlStart c0.name] ∧
      (dRestart c0 dctlStopFail).1 = [DAct.launchctlStop c0.name] ∧
      (dRestart c0 dctlStopFail).2 ≠ none) :=
  ⟨⟨rfl, by decide, rfl⟩,
    c4_start_restart wFresh wNoSvc c0 dctlOk dctlStopFail rfl (by decide) rfl⟩

/-- C8 counterexample: on the darwin backend, Uninstall of a
never-installed service fails at the `launchctl unload` step and returns
that generic wrapped error, whose message does not identify the service
as not installed. -/
theorem c8_counterexample :
    (dUninstall envNoUnload none).1 =
      some "Unable to unload service prior to uninstalling" ∧
    hasSub ("is not installed").data
      ("Unable to unload service prior to uninstalling").data = false := by
  decide

/-- C8 amended: on the Windows backend, Uninstall of a never-installed
service returns the formatted error "service NAME is not installed"; the
darwin backend instead returns a generic unload error (or, were the
unload to succeed, a generic file-removal error). -/
theorem c8_uninstall_amended (c : Config) (wenv : WinEnv) (denv : DEnv)
    (hw1 : wenv.connectOk = true) (hw2 : wenv.svcExists = false) :
    winUninstall c wenv = some ("service " ++ c.name ++ " is not installed") ∧
    ((dUninstall denv none).1 = some "Unable to unload service prior to uninstalling" ∨
      (dUninstall denv none).1 = some "remove: no such file or directory") := by
  constructor
  · simp [winUninstall, hw1, hw2]
  · unfold dUninstall
    cases hu : denv.unloadOk <;> simp [hu]

theorem c8_uninstall_witness :
    (wNoSvc.connectOk = true ∧ wNoSvc.svcExists = false) ∧
    (winUninstall c0 wNoSvc = some ("service " ++ c0.name ++ " is not installed") ∧
      ((dUninstall envNoUnload none).1 =
          some "Unable to unload service prior to uninstalling" ∨
        (dUninstall envNoUnload none).1 = some "remove: no such file or directory")) :=
  ⟨⟨rfl, rfl⟩, c8_uninstall_amended c0 wNoSvc envNoUnload rfl rfl⟩

/-- C9 counterexample: when the template execution inside prepareTmpFile
fails after the temporary file was created, the returned name is empty,
the caller's conditional deferred remove is skipped, and the call returns
an error with the temporary file still on disk. -/
theorem c9_counterexample :
    (dRequired c0 envTemplateFail (some "old")).leaked = true ∧
    (dRequired c0 envTemplateFail (some "old")).err ≠ none := by
  decide

/-- C9 amended: the temporary rendered-descriptor file is removed before
the call returns on the success path and on every failure that occurs
after prepareTmpFile has returned its name; but a template, chmod or
close failure inside prepareTmpFile (after the file was created) leaks
the file, because the empty returned name skips the deferred remove. -/
theorem c9_tmpfile_amended (c : Config) (env : DEnv) (inst : Option String) :
    (dRequired c env inst).leaked
        = (env.createTmpOk && !(env.templateOk && env.chmodOk && env.closeOk)) ∧
    (dInstallOrUpdate c env inst).leaked
        = (env.createTmpOk && !(env.templateOk && env.chmodOk && env.closeOk)) := by
  obtain ⟨ct, te, ch, cl, sw, ro, rn, re, co, lo, ul⟩ := env
  constructor <;>
    cases ct <;> cases te <;> cases ch <;> cases cl <;>
      simp [dRequired, dInstallOrUpdate, prepareTmpFile, tmpName] <;>
      (try split_ifs) <;> simp_all

/-- C10: with no existing registration, the Windows InstallOrUpdate
creates the service and issues a start command to it before returning;
with an existing registration whose config differs it only updates the
configuration and never issues a start command. -/
theorem c10_create_vs_update (c : Config) (env env2 : WinEnv)
    (h1 : env.connectOk = true) (h2 : env.svcExists = false) (h3 : env.exeOk = true)
    (h4 : env.createOk = true) (h5 : env.openForStartOk = true) (h6 : env.startOk = true)
    (g1 : env2.connectOk = true) (g2 : env2.svcExists = true) (g3 : env2.queryCfgOk = true)
    (g4 : env2.oldCfg ≠ buildConfig c) (g5 : env2.updateOk = true) :
    (winInstallOrUpdate c env).acts =
      [WinAction.connect,
        WinAction.createSvc (winBinPath env.exePath c.arguments) (buildConfig c),
        WinAction.startSvc, WinAction.disconnect] ∧
    (winInstallOrUpdate c env2).acts =
      [WinAction.connect, WinAction.updateCfg (buildConfig c), WinAction.disconnect] ∧
    WinAction.startSvc ∉ (winInstallOrUpdate c env2).acts := by
  have g4' : (env2.oldCfg == buildConfig c) = false := by
    simp [g4]
  refine ⟨?_, ?_, ?_⟩ <;>
    simp [winInstallOrUpdate, h1, h2, h3, h4, h5, h6, g1, g2, g3, g4', g5]

theorem c10_witness :
    (wNoSvc.connectOk = true ∧ wNoSvc.svcExists = false ∧ wNoSvc.exeOk = true ∧
      wNoSvc.createOk = true ∧ wNoSvc.openForStartOk = true ∧ wNoSvc.startOk = true ∧
      wExist.connectOk = true ∧ wExist.svcExists = true ∧ wExist.queryCfgOk = true ∧
      wExist.oldCfg ≠ buildConfig c0 ∧ wExist.updateOk = true) ∧
    ((winInstallOrUpdate c0 wNoSvc).acts =
        [WinAction.connect,
          WinAction.createSvc (winBinPath wNoSvc.exePath c0.arguments) (buildConfig c0),
          WinAction.startSvc, WinAction.disconnect] ∧
      (winInstallOrUpdate c0 wExist).acts =
        [WinAction.connect, WinAction.updateCfg (buildConfig c0), WinAction.disconnect] ∧
      WinAction.startSvc ∉ (winInstallOrUpdate c0 wExist).acts) :=
  ⟨⟨rfl, rfl, rfl, rfl, rfl, rfl, rfl, rfl, rfl, by decide, rfl⟩,
    c10_create_vs_update c0 wNoSvc wExist rfl rfl rfl rfl rfl rfl rfl rfl rfl
      (by decide) rfl⟩

end Service
